import Mathlib

/-!
# Verification of the Gmail-to-IMAP transfer core

A shallow embedding of the core functions of the `gmail_to_imap` repository
(`progress_manager.py`, `imap_client.py`, `gmail_client.py`,
`transfer_orchestrator.py`), together with theorems settling the spec claims
about them.  Python dictionaries are modelled as association lists, time as
integers/naturals, and effectful calls (IMAP APPEND, Gmail fetch, file I/O)
as explicit outcome parameters or emitted event lists.
-/

namespace GmailToImap

/-! ## String helpers

Python string primitives modelled on the character lists of Lean strings
(`String.data`), so every definition reduces inside the kernel:
`s.upper()` / `s.lower()` via `Char.toUpper` / `Char.toLower`,
`s.startswith(p)` via `List.isPrefixOf`, and `sub in s` via an explicit
infix search. -/

/-- Python `s.upper()`. -/
def pyUpper (s : String) : List Char := s.data.map Char.toUpper

/-- Python `s.lower()`. -/
def pyLower (s : String) : List Char := s.data.map Char.toLower

/-- Python `s.startswith(p)`. -/
def pyStartsWith (s p : String) : Bool := p.data.isPrefixOf s.data

/-- `needle` occurs as a contiguous run inside `hay` (Python `needle in hay`). -/
def listContainsSub (needle : List Char) : List Char → Bool
  | [] => needle.isEmpty
  | c :: rest => needle.isPrefixOf (c :: rest) || listContainsSub needle rest

/-! ## Flag derivation (transfer_orchestrator.py, fetcher thread and transfer_message)

The source computes, for a fetched message with Gmail `labelIds`:
`flags = []`; `if 'UNREAD' not in labels: flags.append('\\Seen')`;
`if 'STARRED' in labels: flags.append('\\Flagged')`. -/

def deriveFlags (labelIds : List String) : List String :=
  (if "UNREAD" ∈ labelIds then [] else ["\\Seen"]) ++
  (if "STARRED" ∈ labelIds then ["\\Flagged"] else [])

/-! ## Folder-name resolution (imap_client.py)

`_get_full_folder_name` resolves a folder name against the namespace
discovered at connect time.  The `namespace_prefix` attribute is modelled as
`Option String`: `none` for the attribute being absent; the Python truthiness
test `if hasattr(self, 'namespace_prefix') and self.namespace_prefix` is the
condition "is `some p` with `p ≠ \"\"`". -/

def getFullFolderName (nsPre : Option String) (folderName : String) : String :=
  if pyUpper folderName = "INBOX".data then "INBOX"
  else
    match nsPre with
    | some p =>
        if p ≠ "" then
          if pyStartsWith folderName p then folderName else p ++ folderName
        else
          if pyStartsWith folderName "INBOX." then folderName
          else "INBOX." ++ folderName
    | none =>
        if pyStartsWith folderName "INBOX." then folderName
        else "INBOX." ++ folderName

/-- Outcome of the NAMESPACE discovery attempted by `IMAPClient.connect`:
either the capability is absent, or the personal namespace list is empty /
falsy, or a personal namespace `(prefix, delimiter)` is returned (either
component may be NIL, modelled as `none`). -/
inductive NamespaceResult where
  | absent
  | noPersonalNamespace
  | personal (p : Option String) (d : Option String)
deriving DecidableEq, Repr

/-- The `(namespace_prefix, namespace_delimiter)` pair set by
`IMAPClient.connect` (imap_client.py lines 52-73): NAMESPACE absent falls
back to `("INBOX.", ".")`; an empty/falsy personal namespace yields
`("", ".")`; otherwise each falsy component is defaulted (`""` for the
prefix, `"."` for the delimiter). -/
def discoverNamespace : NamespaceResult → String × String
  | NamespaceResult.absent => ("INBOX.", ".")
  | NamespaceResult.noPersonalNamespace => ("", ".")
  | NamespaceResult.personal p d =>
      ((match p with
        | some s => if s = "" then "" else s
        | none => ""),
       (match d with
        | some s => if s = "" then "." else s
        | none => "."))

/-- The resolution function exactly as the claim words it (for refinement
comparison): `INBOX` unchanged, a name already beginning with the discovered
prefix unchanged, otherwise exactly the discovered prefix prepended. -/
def resolveClaimed (p : String) (folderName : String) : String :=
  if pyUpper folderName = "INBOX".data then "INBOX"
  else if pyStartsWith folderName p then folderName
  else p ++ folderName

/-- The amended resolution: `INBOX` unchanged; when the discovered prefix is
non-empty it is the one applied; when it is empty or the attribute is absent,
the effective prefix is the fallback `"INBOX."`. -/
def resolveAmended (nsPre : Option String) (folderName : String) : String :=
  if pyUpper folderName = "INBOX".data then "INBOX"
  else
    let p := match nsPre with
             | some q => if q = "" then "INBOX." else q
             | none => "INBOX."
    if pyStartsWith folderName p then folderName else p ++ folderName

/-! ## Progress persistence (progress_manager.py)

`ProgressManager.save_progress` opens `self.progress_file` for writing and
dumps the JSON record into it directly; `save_progress_batch` guards it with
the 30-second timer.  A save is modelled as the list of file-system operations
it performs. -/

inductive FileOp where
  | openWrite (path : String)
  | writeData (path : String) (record : String)
  | closeFile (path : String)
  | renameFile (src dst : String)
deriving DecidableEq, Repr

/-- The file operations performed by `ProgressManager.save_progress`
(progress_manager.py lines 40-46): `open(self.progress_file, 'w')`,
`json.dump(self.progress, file)`, implicit close.  No temporary file and no
rename appear in the source. -/
def save_progress (progressFile record : String) : List FileOp :=
  [FileOp.openWrite progressFile,
   FileOp.writeData progressFile record,
   FileOp.closeFile progressFile]

/-- The mutable `_last_save_time` of `ProgressManager`. -/
structure BatchSaveState where
  lastSaveTime : Int
deriving DecidableEq, Repr

/-- `ProgressManager.save_progress_batch` (lines 65-74): saves iff `force`
or `current_time - self._last_save_time >= 30`, updating `_last_save_time`
on save.  Returns the new state and the file operations performed. -/
def save_progress_batch (force : Bool) (currentTime : Int)
    (st : BatchSaveState) (progressFile record : String) :
    BatchSaveState × List FileOp :=
  if force = true ∨ 30 ≤ currentTime - st.lastSaveTime then
    (⟨currentTime⟩, save_progress progressFile record)
  else
    (st, [])

/-- An operation that writes directly to `target` (opening it for writing or
writing data into it). -/
def isDirectWriteTo (target : String) : FileOp → Bool
  | FileOp.openWrite p => p == target
  | FileOp.writeData p _ => p == target
  | _ => false

/-- An operation that renames some file into `target`. -/
def isRenameInto (target : String) : FileOp → Bool
  | FileOp.renameFile _ dst => dst == target
  | _ => false

/-- The claim's atomic-write pattern over an operation list: the target file
is never opened or written directly, and the record arrives by a rename into
place from a sibling temporary file. -/
def atomicWritePattern (target : String) (ops : List FileOp) : Bool :=
  ops.all (fun op => !(isDirectWriteTo target op)) && ops.any (isRenameInto target)

/-! ## IMAP upload retry loop (imap_client.py, upload_message)

`IMAPClient.upload_message` runs `for attempt in range(3)`, performing one
APPEND per iteration.  On an exception it increments the error counter and
classifies the error by substring search on its text; an SSL/transport error
on a non-final attempt triggers a reconnect before the next iteration; the
exception is re-raised only when `attempt == max_retries - 1`, regardless of
the classification.  The loop is modelled as a function of the per-attempt
APPEND outcomes (the i-th list element is what the i-th APPEND does); the
connection-recycling check, which does not alter the retry control flow, is
modelled separately below. -/

inductive AppendOutcome where
  | success
  | failure (errText : String)
deriving DecidableEq, Repr

/-- The transport-error classification of upload_message (lines 157-158):
`"SSL" in str(e) or "socket" in str(e).lower() or "LOGOUT" in str(e) or
"connection" in str(e).lower()`. -/
def isSslError (e : String) : Bool :=
  listContainsSub "SSL".data e.data ||
  listContainsSub "socket".data (pyLower e) ||
  listContainsSub "LOGOUT".data e.data ||
  listContainsSub "connection".data (pyLower e)

/-- Observable effect of one `upload_message` call: how many APPEND attempts
were performed, how many mid-call reconnects were attempted after transport
errors, and the error finally re-raised (`none` when the call returned). -/
structure UploadTrace where
  appendAttempts : Nat
  sslReconnects : Nat
  raised : Option String
deriving DecidableEq, Repr

def uploadMessageGo : List AppendOutcome → Nat → UploadTrace
  | [], _ => ⟨0, 0, none⟩
  | o :: rest, attempt =>
    match o with
    | AppendOutcome.success => ⟨1, 0, none⟩
    | AppendOutcome.failure e =>
        if attempt = 2 then ⟨1, 0, some e⟩
        else
          let t := uploadMessageGo rest (attempt + 1)
          if isSslError e then ⟨t.appendAttempts + 1, t.sslReconnects + 1, t.raised⟩
          else ⟨t.appendAttempts + 1, t.sslReconnects, t.raised⟩

/-- `IMAPClient.upload_message` with `max_retries = 3`, starting at attempt 0. -/
def upload_message (outcomes : List AppendOutcome) : UploadTrace :=
  uploadMessageGo outcomes 0

/-! ## Progress record membership (progress_manager.py)

`transferred_messages` is a dict from label id to the ordered list of
transferred message ids; modelled as an association list with unique keys. -/

abbrev TransferredMap := List (String × List String)

/-- `ProgressManager.is_message_transferred` (lines 48-51). -/
def is_message_transferred (t : TransferredMap) (id label : String) : Bool :=
  match t.find? (fun p => p.1 == label) with
  | some p => p.2.contains id
  | none => false

/-- `ProgressManager.mark_message_completed` (lines 53-61): create the
label's list when absent, then append the message id if not yet present. -/
def mark_message_completed (t : TransferredMap) (id label : String) :
    TransferredMap :=
  match t.find? (fun p => p.1 == label) with
  | none => t ++ [(label, [id])]
  | some _ =>
      t.map (fun p =>
        if p.1 == label then
          (p.1, if p.2.contains id then p.2 else p.2 ++ [id])
        else p)

/-! ## Message cache and transfer paths (transfer_orchestrator.py)

`self.message_cache` maps message ids to the decoded
`{raw_message, flags, msg_time}` entry; modelled as an association list.
The Gmail fetch performed on a cache miss is modelled by a parameter giving
the decoded entry the fetch would produce, and the IMAP upload by a boolean
saying whether `imap_client.upload_message` returned (or raised after its
internal retries). -/

structure CachedMsg where
  raw_message : String
  flags : List String
  msg_time : Option Int
deriving DecidableEq, Repr

abbrev Cache := List (String × CachedMsg)

def cacheLookup (c : Cache) (id : String) : Option CachedMsg :=
  (c.find? (fun p => p.1 == id)).map (fun p => p.2)

def cacheInsert (c : Cache) (id : String) (m : CachedMsg) : Cache :=
  (id, m) :: c

def cacheErase (c : Cache) (id : String) : Cache :=
  c.filter (fun p => p.1 != id)

/-- `GmailToImapTransfer._cleanup_message_from_cache` (lines 220-236):
deletes the entry if present. -/
def cleanup_message_from_cache (c : Cache) (id : String) : Cache :=
  if (cacheLookup c id).isSome then cacheErase c id else c

/-- The fetcher thread's cache write (lines 392-422): an entry is inserted
only when the id is not already cached. -/
def fetcher_cache_insert (c : Cache) (id : String) (m : CachedMsg) : Cache :=
  if (cacheLookup c id).isSome then c else cacheInsert c id m

inductive TransferResult where
  | ok
  | uploadFailed (e : String)
deriving DecidableEq, Repr

structure OrchState where
  message_cache : Cache
  transferred : TransferredMap
  cache_hits : Nat
  cache_misses : Nat
deriving DecidableEq, Repr

/-- `GmailToImapTransfer.transfer_message` (lines 143-193): on a cache hit
reuse the entry (`cache_hits += 1`); on a miss fetch from Gmail, decode, and
insert into the cache (`cache_misses += 1`).  Then upload to IMAP; only if
the upload returns is the message marked completed.  A raising upload leaves
the function with the state mutated so far (the exception propagates). -/
def transfer_message (st : OrchState) (id label : String)
    (fetched : CachedMsg) (uploadOk : Bool) : OrchState × TransferResult :=
  match cacheLookup st.message_cache id with
  | some _ =>
      let st1 := { st with cache_hits := st.cache_hits + 1 }
      if uploadOk then
        ({ st1 with
            transferred := mark_message_completed st1.transferred id label },
         TransferResult.ok)
      else (st1, TransferResult.uploadFailed "append failed")
  | none =>
      let st1 := { st with
                    message_cache := cacheInsert st.message_cache id fetched,
                    cache_misses := st.cache_misses + 1 }
      if uploadOk then
        ({ st1 with
            transferred := mark_message_completed st1.transferred id label },
         TransferResult.ok)
      else (st1, TransferResult.uploadFailed "append failed")

/-- `GmailToImapTransfer.transfer_message_from_cache` (lines 195-218): on a
cache miss fall back to `transfer_message`; on a hit reuse the entry, upload,
mark completed, and only then remove the entry from the cache. -/
def transfer_message_from_cache (st : OrchState) (id label : String)
    (fetched : CachedMsg) (uploadOk : Bool) : OrchState × TransferResult :=
  match cacheLookup st.message_cache id with
  | none => transfer_message st id label fetched uploadOk
  | some _ =>
      let st1 := { st with cache_hits := st.cache_hits + 1 }
      if uploadOk then
        let st2 := { st1 with
            transferred := mark_message_completed st1.transferred id label }
        ({ st2 with
            message_cache := cleanup_message_from_cache st2.message_cache id },
         TransferResult.ok)
      else (st1, TransferResult.uploadFailed "append failed")

/-- The `safe_transfer` decorator (utils.py) applied to
`transfer_message_from_cache`: up to 3 attempts; an attempt's exception is
swallowed and the call re-run unless it was the last attempt.  The i-th
element of `uploadResults` is the upload outcome of the i-th attempt. -/
def safe_transfer_from_cache (st : OrchState) (id label : String)
    (fetched : CachedMsg) : List Bool → Nat → OrchState × TransferResult
  | [], _ => (st, TransferResult.uploadFailed "no outcome")
  | ok :: rest, attempt =>
      match transfer_message_from_cache st id label fetched ok with
      | (st1, TransferResult.ok) => (st1, TransferResult.ok)
      | (st1, TransferResult.uploadFailed e) =>
          if attempt = 2 then (st1, TransferResult.uploadFailed e)
          else safe_transfer_from_cache st1 id label fetched rest (attempt + 1)

structure UploaderStats where
  uploaded : Nat
  errors : Nat
deriving DecidableEq, Repr

/-- One iteration of `imap_uploader_thread` on a dequeued item
(transfer_orchestrator.py lines 484-527): skip if already transferred;
otherwise run the retry-wrapped transfer, incrementing `uploaded` on success
and `errors` when it ultimately raises. -/
def uploader_process_item (st : OrchState) (stats : UploaderStats)
    (id label : String) (fetched : CachedMsg) (uploadResults : List Bool) :
    OrchState × UploaderStats :=
  if is_message_transferred st.transferred id label then (st, stats)
  else
    match safe_transfer_from_cache st id label fetched uploadResults 0 with
    | (st1, TransferResult.ok) =>
        (st1, { stats with uploaded := stats.uploaded + 1 })
    | (st1, TransferResult.uploadFailed _) =>
        (st1, { stats with errors := stats.errors + 1 })

/-! ## Label-level transfer and resume (transfer_orchestrator.py, progress_manager.py)

The persisted progress relevant to resume: `current_label` (a label NAME,
see `transfer_label` line 271) and `transferred_messages` (keyed by label
ID).  `transfer_label` first consults `is_label_completed` with the label
ID; the per-label pipeline is modelled at the level of its net effect with a
mock sink (every APPEND succeeds): each not-yet-transferred message id is
appended once, in order, and marked completed.  An interrupted run is a run
whose pipeline handled only a prefix of the message list. -/

structure Progress where
  current_label : String
  transferred : TransferredMap
deriving DecidableEq, Repr

/-- `ProgressManager.is_label_completed` (lines 76-79):
`progress["current_label"] != label and label in transferred_messages`. -/
def is_label_completed (p : Progress) (label : String) : Bool :=
  (p.current_label != label) &&
  (p.transferred.find? (fun q => q.1 == label)).isSome

/-- Net effect of the per-label pipeline on a message-id list with a mock
sink: ids already recorded are filtered out (fetcher line 363, uploader
line 487); every other id is APPENDed and marked completed (lines 494,
212-215).  Returns the final progress and the list of APPENDed ids. -/
def processMessages (p : Progress) (label : String) :
    List String → Progress × List String
  | [] => (p, [])
  | id :: rest =>
      if is_message_transferred p.transferred id label then
        processMessages p label rest
      else
        let p1 : Progress :=
          { p with transferred := mark_message_completed p.transferred id label }
        let r := processMessages p1 label rest
        (r.1, id :: r.2)

/-- `GmailToImapTransfer.transfer_label` (lines 257-287): skip the label if
`is_label_completed(label_id)`; otherwise set `current_label` to the label
NAME, save, and run the pipeline over the label's message ids.  Nothing
clears `current_label` afterwards (neither `transfer_label` nor `run`). -/
def transfer_label (p : Progress) (labelId labelName : String)
    (msgs : List String) : Progress × List String :=
  if is_label_completed p labelId then (p, [])
  else
    let p1 : Progress := { p with current_label := labelName }
    processMessages p1 labelId msgs

/-- A run of `transfer_label` interrupted after the pipeline handled the
first `k` message ids; the returned progress is the state the periodic
flush persists at kill time. -/
def transfer_label_interrupted (p : Progress) (labelId labelName : String)
    (msgs : List String) (k : Nat) : Progress × List String :=
  if is_label_completed p labelId then (p, [])
  else
    let p1 : Progress := { p with current_label := labelName }
    processMessages p1 labelId (msgs.take k)

/-! ## IMAP connection recycling (imap_client.py)

The counters of `IMAPClient` relevant to connection recycling, plus a ghost
session counter incremented on every (re)connect so that APPENDs can be
attributed to sessions.  Uploads are driven with a mock sink (every APPEND
succeeds), matching the claim's setting. -/

structure ImapState where
  connection_start_time : Option Nat
  total_uploads : Nat
  connection_errors : Nat
  sessionId : Nat
deriving DecidableEq, Repr

/-- `IMAPClient._should_recycle_connection` (lines 180-201): false when not
connected; otherwise recycle when the connection age exceeds 900 s, or
`total_uploads >= 100`, or `connection_errors >= 10`. -/
def should_recycle_connection (now : Nat) (st : ImapState) : Bool :=
  match st.connection_start_time with
  | none => false
  | some t0 =>
      decide (900 < now - t0) || decide (100 ≤ st.total_uploads) ||
      decide (10 ≤ st.connection_errors)

/-- `IMAPClient.connect` (counter-relevant effect): records the connection
start time and begins a new session. -/
def connect (now : Nat) (st : ImapState) : ImapState :=
  { st with connection_start_time := some now,
            sessionId := st.sessionId + 1 }

/-- `IMAPClient._reconnect` (lines 203-225): logout (ignoring errors), reset
`connection_errors` and `total_uploads` to zero, then `connect`. -/
def reconnect (now : Nat) (st : ImapState) : ImapState :=
  connect now { st with connection_errors := 0, total_uploads := 0 }

inductive ImapEvent where
  | logoutReconnect
  | append (sessionId : Nat)
deriving DecidableEq, Repr

/-- One `upload_message` call against a mock sink (the APPEND succeeds on
the first attempt): the recycle predicate is evaluated BEFORE the APPEND
(line 129); if it holds the connection is logged out and re-established;
then the APPEND runs on the current session and `total_uploads` is
incremented (line 143). -/
def upload_message_mock (now : Nat) (st : ImapState) :
    ImapState × List ImapEvent :=
  if should_recycle_connection now st then
    let st1 := reconnect now st
    ({ st1 with total_uploads := st1.total_uploads + 1 },
     [ImapEvent.logoutReconnect, ImapEvent.append st1.sessionId])
  else
    ({ st with total_uploads := st.total_uploads + 1 },
     [ImapEvent.append st.sessionId])

def uploadRunAux : List Nat → ImapState → List ImapEvent →
    ImapState × List ImapEvent
  | [], st, evs => (st, evs)
  | now :: rest, st, evs =>
      let r := upload_message_mock now st
      uploadRunAux rest r.1 (evs ++ r.2)

/-- A sequence of uploads (one per element of `times`, giving the clock at
each call) starting from a fresh connection made at `t0`. -/
def uploadRun (times : List Nat) (t0 : Nat) : ImapState × List ImapEvent :=
  uploadRunAux times (connect t0 ⟨none, 0, 0, 0⟩) []

def isAppendOn (s : Nat) : ImapEvent → Bool
  | ImapEvent.append t => s == t
  | _ => false

/-- Number of APPENDs performed on session `s` in an event trace. -/
def appendCount (s : Nat) (evs : List ImapEvent) : Nat :=
  evs.countP (isAppendOn s)

/-! ## Gmail batched fetch with rate-limit retry (gmail_client.py)

`GmailClient.get_messages_batch` processes one chunk of at most 25 ids with
`for attempt in range(3)`.  Each attempt either executes the batch call —
whose callback records, per requested id, a fetched message, a per-item
HTTP 429, or another per-item error — or the batch call itself raises an
HttpError with some status.  The model is driven by the list of per-attempt
outcomes and, for the single-item fallback, by an oracle giving each id's
individual fetch outcomes. -/

inductive ItemResult where
  | fetchedMsg (msg : String)
  | rateLimited
  | otherError
deriving DecidableEq, Repr

inductive BatchAttemptOutcome where
  | executed (results : List (String × ItemResult))
  | httpError (status : Nat)
deriving DecidableEq, Repr

inductive SingleOutcome where
  | ok (msg : String)
  | httpError (status : Nat)
deriving DecidableEq, Repr

/-- Observable result of processing one chunk: the `all_messages` mapping
accumulated so far, the sleeps performed (seconds), and the ids for which a
single-item fallback fetch was attempted. -/
structure ChunkTrace where
  fetched : List (String × String)
  sleeps : List Nat
  singleFetches : List String
deriving DecidableEq, Repr

def containsKey (l : List (String × String)) (id : String) : Bool :=
  l.any (fun p => p.1 == id)

/-- The single-item fetch retry loop of the fallback (gmail_client.py lines
234-246): `for individual_attempt in range(3)`, retrying only on HTTP 429
with `(2 ** individual_attempt) * 2` seconds of sleep, giving up on any
other error.  Returns the fetched message (if any) and the sleeps. -/
def singleFetchGo : List SingleOutcome → Nat → Option String × List Nat
  | [], _ => (none, [])
  | o :: rest, attempt =>
      match o with
      | SingleOutcome.ok m => (some m, [])
      | SingleOutcome.httpError s =>
          if s = 429 ∧ attempt < 2 then
            let t := singleFetchGo rest (attempt + 1)
            (t.1, (2 ^ attempt) * 2 :: t.2)
          else (none, [])

/-- The single-item fallback (lines 232-246): for every id of the chunk not
already in `all_messages`, run the individual fetch with its retry loop. -/
def fallbackSingles (batchIds : List String) (acc : List (String × String))
    (oracle : String → List SingleOutcome) : ChunkTrace :=
  batchIds.foldl
    (fun (t : ChunkTrace) id =>
      if containsKey t.fetched id then t
      else
        let r := singleFetchGo (oracle id) 0
        { fetched := t.fetched ++ (match r.1 with
            | some m => [(id, m)]
            | none => []),
          sleeps := t.sleeps ++ r.2,
          singleFetches := t.singleFetches ++ [id] })
    ⟨acc, [], []⟩

/-- The per-chunk retry loop (lines 175-247).  An `executed` attempt adds
the fetched responses to `all_messages`; if ids are still missing and
attempts remain, sleep `(2 ** attempt) * 5` and retry only the missing ids;
otherwise break (returning whatever was fetched — no fallback).  A
batch-level `httpError` with status 429 and attempts remaining sleeps
`(2 ** attempt) * 10` and retries the same ids; any other HttpError (or a
429 on the final attempt) triggers the single-item fallback and breaks. -/
def processChunkGo : List BatchAttemptOutcome → List String →
    List (String × String) → (String → List SingleOutcome) → Nat →
    ChunkTrace
  | [], _, acc, _, _ => ⟨acc, [], []⟩
  | o :: rest, batchIds, acc, oracle, attempt =>
      match o with
      | BatchAttemptOutcome.executed results =>
          let acc2 := acc ++ results.filterMap
            (fun r => match r.2 with
              | ItemResult.fetchedMsg m => some (r.1, m)
              | _ => none)
          let missing := batchIds.filter (fun id => !(containsKey acc2 id))
          if ¬missing.isEmpty ∧ attempt < 2 then
            let t := processChunkGo rest missing acc2 oracle (attempt + 1)
            { t with sleeps := (2 ^ attempt) * 5 :: t.sleeps }
          else ⟨acc2, [], []⟩
      | BatchAttemptOutcome.httpError s =>
          if s = 429 ∧ attempt < 2 then
            let t := processChunkGo rest batchIds acc oracle (attempt + 1)
            { t with sleeps := (2 ^ attempt) * 10 :: t.sleeps }
          else fallbackSingles batchIds acc oracle

/-- Processing of one chunk of `get_messages_batch`, starting at attempt 0
with nothing fetched yet. -/
def process_chunk (batchIds : List String)
    (attempts : List BatchAttemptOutcome)
    (oracle : String → List SingleOutcome) : ChunkTrace :=
  processChunkGo attempts batchIds [] oracle 0

/-! ## Theorems for C8 and C9 -/

/-- C9: For every fetched message, the flag sequence passed to APPEND
contains `\Seen` iff `UNREAD` is not among the message's labelIds, contains
`\Flagged` iff `STARRED` is among them, and contains no other flags. -/
theorem c9_flag_derivation (labelIds : List String) :
    (("\\Seen" ∈ deriveFlags labelIds) ↔ "UNREAD" ∉ labelIds) ∧
    (("\\Flagged" ∈ deriveFlags labelIds) ↔ "STARRED" ∈ labelIds) ∧
    ((deriveFlags labelIds).all
      (fun f => f == "\\Seen" || f == "\\Flagged") = true) := by
  by_cases h1 : "UNREAD" ∈ labelIds <;>
    by_cases h2 : "STARRED" ∈ labelIds <;>
      simp [deriveFlags, h1, h2]

/-- C8 counterexample: when the server advertises NAMESPACE with an empty
personal prefix (for example `(("", "/"))`), the discovered prefix is `""`,
but resolution does not prepend that (empty) prefix: it falls into the
`INBOX.` fallback branch, so `getFullFolderName (some "") "Work" =
"INBOX.Work"` while the claimed pure function yields `"Work"`. -/
theorem c8_counterexample :
    discoverNamespace (NamespaceResult.personal (some "") (some "/"))
      = ("", "/") ∧
    getFullFolderName (some "") "Work" = "INBOX.Work" ∧
    resolveClaimed "" "Work" = "Work" ∧
    getFullFolderName (some "") "Work" ≠ resolveClaimed "" "Work" := by
  refine ⟨rfl, ?_, ?_, ?_⟩ <;> decide

/-- C8 amended: resolution is a pure function of the name and the discovered
prefix; `INBOX` is returned unchanged, and with a non-empty discovered prefix
a name beginning with it is unchanged and any other name has it prepended —
but with an empty or absent prefix the fallback prefix `"INBOX."` is applied
instead of the empty prefix.  When NAMESPACE is not advertised the discovery
falls back to `("INBOX.", ".")`. -/
theorem c8_amended_resolution (nsPre : Option String) (folderName : String) :
    getFullFolderName nsPre folderName = resolveAmended nsPre folderName ∧
    discoverNamespace NamespaceResult.absent = ("INBOX.", ".") := by
  refine ⟨?_, rfl⟩
  cases nsPre with
  | none => simp [getFullFolderName, resolveAmended]
  | some q =>
      by_cases hq : q = "" <;>
        simp [getFullFolderName, resolveAmended, hq]

/-! ## Helper lemmas on the progress map and the cache -/

theorem is_message_transferred_mark (t : TransferredMap) (id label : String) :
    is_message_transferred (mark_message_completed t id label) id label
      = true := by
  unfold mark_message_completed
  cases hf : t.find? (fun p => p.1 == label) with
  | none =>
      unfold is_message_transferred
      rw [List.find?_append, hf]
      simp
  | some q =>
      unfold is_message_transferred
      rw [List.find?_map]
      have hpred :
          ((fun p : String × List String => p.1 == label) ∘
            (fun p : String × List String =>
              if p.1 == label then
                (p.1, if p.2.contains id then p.2 else p.2 ++ [id])
              else p))
          = (fun p : String × List String => p.1 == label) := by
        funext p
        by_cases h : p.1 = label <;> simp [h]
      rw [hpred, hf]
      have hq := List.find?_some hf
      simp only at hq
      have hq2 : q.1 = label := by simpa using hq
      by_cases hm : id ∈ q.2 <;> simp [hq2, hm]

theorem cacheLookup_insert_self (c : Cache) (id : String) (m : CachedMsg) :
    cacheLookup (cacheInsert c id m) id = some m := by
  simp [cacheLookup, cacheInsert, List.find?_cons]

theorem cacheLookup_insert_other (c : Cache) (id j : String) (m : CachedMsg)
    (h : j ≠ id) :
    cacheLookup (cacheInsert c id m) j = cacheLookup c j := by
  have : (id == j) = false := by simp [Ne.symm h]
  simp [cacheLookup, cacheInsert, List.find?_cons, this]

theorem cacheLookup_erase_self (c : Cache) (id : String) :
    cacheLookup (cacheErase c id) id = none := by
  induction c with
  | nil => rfl
  | cons p rest ih =>
      simp only [cacheErase, List.filter_cons] at ih ⊢
      by_cases h : p.1 = id
      · simpa [h] using ih
      · simp only [cacheLookup, List.find?_cons] at ih ⊢
        simp [h]

theorem cacheLookup_erase_other (c : Cache) (id j : String) (h : j ≠ id) :
    cacheLookup (cacheErase c id) j = cacheLookup c j := by
  induction c with
  | nil => rfl
  | cons p rest ih =>
      obtain ⟨pk, pv⟩ := p
      simp only [cacheErase, List.filter_cons] at ih ⊢
      by_cases hp : pk = id
      · have h1 : (pk != id) = false := by simp [hp]
        have h2 : (pk == j) = false := by
          rw [hp]; exact beq_eq_false_iff_ne.mpr (fun e => h e.symm)
        simp only [cacheLookup, List.find?_cons, h1, h2] at ih ⊢
        simpa using ih
      · have h1 : (pk != id) = true := by simp [hp]
        by_cases hj : pk = j
        · have h2 : (pk == j) = true := beq_iff_eq.mpr hj
          simp [cacheLookup, List.find?_cons, h1, h2]
        · have h2 : (pk == j) = false := beq_eq_false_iff_ne.mpr hj
          simp only [cacheLookup, List.find?_cons, h1, h2, if_true] at ih ⊢
          simpa using ih

theorem transfer_from_cache_fail (st : OrchState) (id label : String)
    (fetched : CachedMsg) :
    (transfer_message_from_cache st id label fetched false).2
      = TransferResult.uploadFailed "append failed" ∧
    (transfer_message_from_cache st id label fetched false).1.transferred
      = st.transferred := by
  rcases hc : cacheLookup st.message_cache id with _ | c <;>
    simp [transfer_message_from_cache, transfer_message, hc]

theorem safe_transfer_all_fail (id label : String) (fetched : CachedMsg) :
    ∀ (outcomes : List Bool) (st : OrchState) (attempt : Nat),
      (∀ b ∈ outcomes, b = false) →
      (safe_transfer_from_cache st id label fetched outcomes attempt).1.transferred
          = st.transferred ∧
      (safe_transfer_from_cache st id label fetched outcomes attempt).2
          ≠ TransferResult.ok := by
  intro outcomes
  induction outcomes with
  | nil =>
      intro st attempt _
      simp [safe_transfer_from_cache]
  | cons b rest ih =>
      intro st attempt h
      have hb : b = false := h b (by simp)
      subst hb
      have hfail := transfer_from_cache_fail st id label fetched
      rcases hr : transfer_message_from_cache st id label fetched false
        with ⟨s1, res⟩
      have hres : res = TransferResult.uploadFailed "append failed" := by
        have := hfail.1; rw [hr] at this; exact this
      have htr : s1.transferred = st.transferred := by
        have := hfail.2; rw [hr] at this; exact this
      subst hres
      by_cases ha : attempt = 2
      · simp [safe_transfer_from_cache, hr, ha, htr]
      · have hrest := ih s1 (attempt + 1) (fun x hx => h x (by simp [hx]))
        simp only [safe_transfer_from_cache, hr, ha, if_false]
        exact ⟨hrest.1.trans htr, hrest.2⟩

/-! ## Theorems for C2 and C5 -/

/-- C2: a message id is added to `transferred_messages[label]` only after the
IMAP APPEND for it returned success — a transfer with a failing upload leaves
`transferred` unchanged, a successful one marks the id; when every attempt of
the retry wrapper fails, the id is still unmarked, the uploader thread
increments its error counter, and the id remains eligible (not filtered by
`is_message_transferred`) for a subsequent run. -/
theorem c2_mark_only_after_success (st : OrchState) (stats : UploaderStats)
    (id label : String) (fetched : CachedMsg) :
    (∀ ok : Bool,
      ((transfer_message_from_cache st id label fetched ok).2
          = TransferResult.ok ↔ ok = true) ∧
      (ok = false →
        (transfer_message_from_cache st id label fetched ok).1.transferred
          = st.transferred) ∧
      (ok = true →
        is_message_transferred
          (transfer_message_from_cache st id label fetched ok).1.transferred
          id label = true)) ∧
    (∀ outcomes : List Bool, (∀ b ∈ outcomes, b = false) →
      (safe_transfer_from_cache st id label fetched outcomes 0).1.transferred
          = st.transferred ∧
      (safe_transfer_from_cache st id label fetched outcomes 0).2
          ≠ TransferResult.ok) ∧
    (is_message_transferred st.transferred id label = false →
      (uploader_process_item st stats id label fetched
          [false, false, false]).2.errors = stats.errors + 1 ∧
      is_message_transferred
        (uploader_process_item st stats id label fetched
          [false, false, false]).1.transferred id label = false) := by
  refine ⟨?_, ?_, ?_⟩
  · intro ok
    rcases hc : cacheLookup st.message_cache id with _ | c <;>
      cases ok <;>
        simp [transfer_message_from_cache, transfer_message, hc,
          is_message_transferred_mark]
  · intro outcomes h
    exact safe_transfer_all_fail id label fetched outcomes st 0 h
  · intro hnot
    have hsafe := safe_transfer_all_fail id label fetched
      [false, false, false] st 0 (by simp)
    rcases hs : safe_transfer_from_cache st id label fetched
        [false, false, false] 0 with ⟨s1, res⟩
    have htr : s1.transferred = st.transferred := by
      have := hsafe.1; rw [hs] at this; exact this
    have hne : res ≠ TransferResult.ok := by
      have := hsafe.2; rw [hs] at this; exact this
    cases res with
    | ok => exact absurd rfl hne
    | uploadFailed e =>
        simp [uploader_process_item, hnot, hs, htr]

/-- C2 witness: instantiates the theorem at a concrete state — an empty
cache, the all-failing outcome list, and an initially unmarked message. -/
theorem c2_mark_only_after_success_witness :
    is_message_transferred
      (transfer_message_from_cache ⟨[], [], 0, 0⟩ "m1" "L1"
        ⟨"RAW", [], none⟩ true).1.transferred "m1" "L1" = true ∧
    (safe_transfer_from_cache ⟨[], [], 0, 0⟩ "m1" "L1" ⟨"RAW", [], none⟩
        [false, false, false] 0).1.transferred = [] ∧
    (uploader_process_item ⟨[], [], 0, 0⟩ ⟨0, 0⟩ "m1" "L1" ⟨"RAW", [], none⟩
        [false, false, false]).2.errors = 0 + 1 :=
  ⟨((c2_mark_only_after_success ⟨[], [], 0, 0⟩ ⟨0, 0⟩ "m1" "L1"
      ⟨"RAW", [], none⟩).1 true).2.2 rfl,
   ((c2_mark_only_after_success ⟨[], [], 0, 0⟩ ⟨0, 0⟩ "m1" "L1"
      ⟨"RAW", [], none⟩).2.1 [false, false, false] (by simp)).1,
   ((c2_mark_only_after_success ⟨[], [], 0, 0⟩ ⟨0, 0⟩ "m1" "L1"
      ⟨"RAW", [], none⟩).2.2 (by decide)).1⟩

/-- C5 counterexample: the cache-miss fallback path does NOT remove its
entry after a successful append.  Starting from an empty cache,
`transfer_message_from_cache` falls back to `transfer_message`, which
fetches, inserts the entry, uploads successfully and marks the message
completed — and leaves the entry in the cache. -/
theorem c5_counterexample :
    (transfer_message_from_cache ⟨[], [], 0, 0⟩ "m1" "L1"
        ⟨"RAW", [], none⟩ true).2 = TransferResult.ok ∧
    is_message_transferred
      (transfer_message_from_cache ⟨[], [], 0, 0⟩ "m1" "L1"
        ⟨"RAW", [], none⟩ true).1.transferred "m1" "L1" = true ∧
    cacheLookup
      (transfer_message_from_cache ⟨[], [], 0, 0⟩ "m1" "L1"
        ⟨"RAW", [], none⟩ true).1.message_cache "m1"
      = some ⟨"RAW", [], none⟩ := by
  refine ⟨?_, ?_, ?_⟩ <;> decide

/-- C5 amended: a cached entry is inserted by at most one fetcher action
(the fetcher never overwrites a present entry); on the cached path the entry
is removed exactly by the successful-append action and a failing append
removes nothing; the cache-miss fallback path inserts the fetched entry and
leaves it in the cache even after its successful append; and no transfer
touches any other message's entry. -/
theorem c5_amended_cache_lifecycle (st : OrchState) (id j label : String)
    (fetched m : CachedMsg) (ok : Bool) :
    ((cacheLookup st.message_cache id).isSome = true →
        fetcher_cache_insert st.message_cache id m = st.message_cache) ∧
    (∀ c : CachedMsg, cacheLookup st.message_cache id = some c →
        (ok = true →
          cacheLookup
            (transfer_message_from_cache st id label fetched ok).1.message_cache
            id = none) ∧
        (ok = false →
          (transfer_message_from_cache st id label fetched ok).1.message_cache
            = st.message_cache)) ∧
    (cacheLookup st.message_cache id = none →
        cacheLookup
          (transfer_message_from_cache st id label fetched ok).1.message_cache
          id = some fetched) ∧
    (j ≠ id →
        cacheLookup
          (transfer_message_from_cache st id label fetched ok).1.message_cache
          j = cacheLookup st.message_cache j) := by
  refine ⟨?_, ?_, ?_, ?_⟩
  · intro h
    simp [fetcher_cache_insert, h]
  · intro c hc
    constructor
    · intro hok; subst hok
      simp [transfer_message_from_cache, hc, cleanup_message_from_cache,
        cacheLookup_erase_self]
    · intro hok; subst hok
      simp [transfer_message_from_cache, hc]
  · intro hc
    cases ok <;>
      simp [transfer_message_from_cache, transfer_message, hc,
        cacheLookup_insert_self]
  · intro hj
    rcases hc : cacheLookup st.message_cache id with _ | c <;> cases ok <;>
      simp [transfer_message_from_cache, transfer_message, hc,
        cleanup_message_from_cache, cacheLookup_erase_other _ _ _ hj,
        cacheLookup_insert_other _ _ _ _ hj]

/-- C5 witness: instantiates the amended cache-lifecycle theorem at a
concrete one-entry cache (cached path, entry evicted) and at the empty cache
(fallback path, entry retained). -/
theorem c5_amended_cache_lifecycle_witness :
    cacheLookup
      (transfer_message_from_cache ⟨[("m1", ⟨"RAW", [], none⟩)], [], 0, 0⟩
        "m1" "L1" ⟨"F", [], none⟩ true).1.message_cache "m1" = none ∧
    cacheLookup
      (transfer_message_from_cache ⟨[], [], 0, 0⟩ "m2" "L1"
        ⟨"F", [], none⟩ true).1.message_cache "m2" = some ⟨"F", [], none⟩ :=
  ⟨((c5_amended_cache_lifecycle ⟨[("m1", ⟨"RAW", [], none⟩)], [], 0, 0⟩
      "m1" "x" "L1" ⟨"F", [], none⟩ ⟨"F", [], none⟩ true).2.1
      ⟨"RAW", [], none⟩ (by decide)).1 rfl,
   (c5_amended_cache_lifecycle ⟨[], [], 0, 0⟩ "m2" "x" "L1"
      ⟨"F", [], none⟩ ⟨"F", [], none⟩ true).2.2.1 (by decide)⟩

/-! ## Theorems for C7 -/

/-- C7 counterexample: a chunk whose 3 batched attempts are all executed
but leave the ref `"a"` rate-limited per-item exhausts its retries (the two
batch-level sleeps 5 and 10 are performed) and then simply breaks: no
single-item fetch is attempted for `"a"` — even though the single-fetch
oracle would succeed — and `"a"` is missing from the result. -/
theorem c7_counterexample :
    (process_chunk ["a"]
      [BatchAttemptOutcome.executed [("a", ItemResult.rateLimited)],
       BatchAttemptOutcome.executed [("a", ItemResult.rateLimited)],
       BatchAttemptOutcome.executed [("a", ItemResult.rateLimited)]]
      (fun _ => [SingleOutcome.ok "M"])).sleeps = [5, 10] ∧
    (process_chunk ["a"]
      [BatchAttemptOutcome.executed [("a", ItemResult.rateLimited)],
       BatchAttemptOutcome.executed [("a", ItemResult.rateLimited)],
       BatchAttemptOutcome.executed [("a", ItemResult.rateLimited)]]
      (fun _ => [SingleOutcome.ok "M"])).singleFetches = [] ∧
    (process_chunk ["a"]
      [BatchAttemptOutcome.executed [("a", ItemResult.rateLimited)],
       BatchAttemptOutcome.executed [("a", ItemResult.rateLimited)],
       BatchAttemptOutcome.executed [("a", ItemResult.rateLimited)]]
      (fun _ => [SingleOutcome.ok "M"])).fetched = [] := by
  refine ⟨?_, ?_, ?_⟩ <;> rfl

/-- C7 amended: the single-item fallback runs exactly when the batch
execution itself raises an HttpError that is not retried (non-429 status,
or any status on the final attempt); exhausting the 3 batched attempts via
per-item rate limiting inside successfully executed batch calls performs no
single-item fetches (the missing refs are dropped).  When the fallback does
run, each single fetch retries up to 3 times with `2·2^attempt` seconds of
backoff on HTTP 429 and gives up immediately on other errors. -/
theorem c7_amended_fallback (batchIds : List String)
    (acc : List (String × String)) (oracle : String → List SingleOutcome)
    (rest : List BatchAttemptOutcome) (s attempt : Nat)
    (results : List (String × ItemResult)) :
    (¬(s = 429 ∧ attempt < 2) →
      processChunkGo (BatchAttemptOutcome.httpError s :: rest)
          batchIds acc oracle attempt
        = fallbackSingles batchIds acc oracle) ∧
    ((processChunkGo (BatchAttemptOutcome.executed results :: rest)
          batchIds acc oracle 2).singleFetches = []) ∧
    (∀ m : String,
      singleFetchGo [SingleOutcome.httpError 429, SingleOutcome.httpError 429,
          SingleOutcome.ok m] 0 = (some m, [2, 4])) ∧
    (singleFetchGo [SingleOutcome.httpError 429, SingleOutcome.httpError 429,
        SingleOutcome.httpError 429] 0 = (none, [2, 4])) ∧
    (∀ (s2 : Nat) (rest2 : List SingleOutcome), s2 ≠ 429 →
      singleFetchGo (SingleOutcome.httpError s2 :: rest2) 0 = (none, [])) := by
  refine ⟨?_, ?_, ?_, ?_, ?_⟩
  · intro h
    simp only [processChunkGo]
    rw [if_neg h]
  · simp [processChunkGo]
  · intro m
    rfl
  · rfl
  · intro s2 rest2 h
    have hcond : ¬(s2 = 429 ∧ 0 < 2) := fun hc => h hc.1
    simp only [singleFetchGo]
    rw [if_neg hcond]

/-- C7 witness: concrete instances — a non-429 batch error on attempt 0
falls back to single fetches, and a non-429 single-fetch error gives up at
once. -/
theorem c7_amended_fallback_witness :
    processChunkGo [BatchAttemptOutcome.httpError 500] ["a"] []
        (fun _ => [SingleOutcome.ok "M"]) 0
      = fallbackSingles ["a"] [] (fun _ => [SingleOutcome.ok "M"]) ∧
    singleFetchGo [SingleOutcome.httpError 430] 0 = (none, []) :=
  ⟨(c7_amended_fallback ["a"] [] (fun _ => [SingleOutcome.ok "M"]) [] 500 0
      []).1 (by decide),
   (c7_amended_fallback ["a"] [] (fun _ => [SingleOutcome.ok "M"]) [] 500 0
      []).2.2.2.2 430 [] (by decide)⟩

/-! ## Theorems for C1 and C10 -/

/-- C1: the code violates resume exactness.  With one label of id
`"Label_1"` and name `"Work"` holding messages `["m1", "m2"]`, run 1
interrupted after transferring `"m1"` persists
`current_label = "Work"` and `transferred_messages = {"Label_1": ["m1"]}`.
Run 2 then evaluates `is_label_completed("Label_1")` — which compares
`current_label` (a label NAME) against the label ID and tests mere key
presence in `transferred_messages` — to true, skips the label entirely, and
`"m2"` is APPENDed zero times across both runs instead of exactly once. -/
theorem c1_resume_skips_partial_label :
    (transfer_label_interrupted ⟨"", []⟩ "Label_1" "Work" ["m1", "m2"] 1).2
      = ["m1"] ∧
    is_label_completed
      (transfer_label_interrupted ⟨"", []⟩ "Label_1" "Work" ["m1", "m2"] 1).1
      "Label_1" = true ∧
    (transfer_label
      (transfer_label_interrupted ⟨"", []⟩ "Label_1" "Work" ["m1", "m2"] 1).1
      "Label_1" "Work" ["m1", "m2"]).2 = [] ∧
    ((transfer_label_interrupted ⟨"", []⟩ "Label_1" "Work" ["m1", "m2"] 1).2
      ++ (transfer_label
        (transfer_label_interrupted ⟨"", []⟩ "Label_1" "Work" ["m1", "m2"] 1).1
        "Label_1" "Work" ["m1", "m2"]).2).count "m2" = 0 := by
  refine ⟨?_, ?_, ?_, ?_⟩ <;> decide

theorem processMessages_current_label (label : String) :
    ∀ (msgs : List String) (p : Progress),
      (processMessages p label msgs).1.current_label = p.current_label := by
  intro msgs
  induction msgs with
  | nil => intro p; rfl
  | cons id rest ih =>
      intro p
      by_cases h : is_message_transferred p.transferred id label <;>
        simp [processMessages, h, ih]

/-- C10 counterexample: after `transfer_label` completes a label (name
`"Work"`), the persisted `current_label` still holds `"Work"` — it is not
cleared to the empty string on completion. -/
theorem c10_counterexample :
    (transfer_label ⟨"", []⟩ "Label_1" "Work" ["m1"]).1.current_label
      = "Work" ∧
    (transfer_label ⟨"", []⟩ "Label_1" "Work" ["m1"]).1.current_label
      ≠ "" := by
  constructor <;> decide

/-- C10 amended: `current_label` is set to the NAME of the label whose
transfer begins and retains that name after the label's transfer completes;
it is never cleared to the empty string, and a skipped label leaves it
unchanged (it is only overwritten when a later label's transfer begins). -/
theorem c10_amended_current_label (p : Progress)
    (labelId labelName : String) (msgs : List String) :
    (is_label_completed p labelId = false →
        (transfer_label p labelId labelName msgs).1.current_label
          = labelName) ∧
    (is_label_completed p labelId = true →
        (transfer_label p labelId labelName msgs).1.current_label
          = p.current_label) := by
  by_cases h : is_label_completed p labelId <;>
    simp [transfer_label, h, processMessages_current_label]

/-- C10 witness: instantiates the amended theorem at a fresh progress
record and a one-message label. -/
theorem c10_amended_current_label_witness :
    (transfer_label ⟨"", []⟩ "Label_1" "Work" ["m1"]).1.current_label
      = "Work" :=
  (c10_amended_current_label ⟨"", []⟩ "Label_1" "Work" ["m1"]).1 (by decide)

/-! ## Theorems for C6 -/

theorem appendCount_append (s : Nat) (l1 l2 : List ImapEvent) :
    appendCount s (l1 ++ l2) = appendCount s l1 + appendCount s l2 := by
  simp [appendCount, List.countP_append]

theorem appendCount_recycle_pair (s t : Nat) :
    appendCount s [ImapEvent.logoutReconnect, ImapEvent.append t]
      = if s = t then 1 else 0 := by
  by_cases h : s = t <;>
    simp [appendCount, List.countP_cons, isAppendOn, h]

theorem appendCount_single (s t : Nat) :
    appendCount s [ImapEvent.append t] = if s = t then 1 else 0 := by
  by_cases h : s = t <;>
    simp [appendCount, List.countP_cons, isAppendOn, h]

theorem recycle_of_uploads (now : Nat) (st : ImapState)
    (h1 : st.connection_start_time.isSome = true)
    (h2 : 100 ≤ st.total_uploads) :
    should_recycle_connection now st = true := by
  rcases hcst : st.connection_start_time with _ | t0
  · rw [hcst] at h1; simp at h1
  · simp [should_recycle_connection, hcst, h2]

theorem uploadRunAux_append_bound (times : List Nat) :
    ∀ (st : ImapState) (evs : List ImapEvent),
      st.connection_start_time.isSome = true →
      st.total_uploads ≤ 100 →
      appendCount st.sessionId evs = st.total_uploads →
      (∀ s, appendCount s evs ≤ 100) →
      (∀ s, st.sessionId < s → appendCount s evs = 0) →
      ∀ s, appendCount s (uploadRunAux times st evs).2 ≤ 100 := by
  induction times with
  | nil =>
      intro st evs _ _ _ h4 _ s
      simpa [uploadRunAux] using h4 s
  | cons now rest ih =>
      intro st evs h1 h2 h3 h4 h5 s
      by_cases hr : should_recycle_connection now st
      · have step : uploadRunAux (now :: rest) st evs
            = uploadRunAux rest
                ⟨some now, 1, 0, st.sessionId + 1⟩
                (evs ++ [ImapEvent.logoutReconnect,
                         ImapEvent.append (st.sessionId + 1)]) := by
          simp [uploadRunAux, upload_message_mock, hr, reconnect, connect]
        rw [step]
        apply ih
        · rfl
        · dsimp only
          omega
        · dsimp only
          rw [appendCount_append, h5 (st.sessionId + 1) (Nat.lt_succ_self _),
            appendCount_recycle_pair, if_pos rfl]
        · intro u
          dsimp only
          rw [appendCount_append, appendCount_recycle_pair]
          by_cases hu : u = st.sessionId + 1
          · rw [h5 u (by omega), if_pos hu]
            omega
          · have := h4 u
            rw [if_neg hu]
            omega
        · intro u hu
          dsimp only at hu
          rw [appendCount_append, appendCount_recycle_pair,
            h5 u (by omega), if_neg (by omega)]
      · have hupl : st.total_uploads < 100 := by
          by_contra hge
          exact hr (recycle_of_uploads now st h1 (by omega))
        have step : uploadRunAux (now :: rest) st evs
            = uploadRunAux rest
                { st with total_uploads := st.total_uploads + 1 }
                (evs ++ [ImapEvent.append st.sessionId]) := by
          simp [uploadRunAux, upload_message_mock, hr]
        rw [step]
        apply ih
        · dsimp only
          exact h1
        · dsimp only
          omega
        · dsimp only
          rw [appendCount_append, appendCount_single, h3, if_pos rfl]
        · intro u
          dsimp only
          rw [appendCount_append, appendCount_single]
          by_cases hu : u = st.sessionId
          · subst hu
            rw [h3, if_pos rfl]
            omega
          · have := h4 u
            rw [if_neg hu]
            omega
        · intro u hu
          dsimp only at hu
          rw [appendCount_append, appendCount_single, h5 u hu,
            if_neg (by omega)]

/-- C6: the recycle predicate holds whenever the session is older than
900 s, or has performed at least 100 uploads, or has accumulated at least
10 connection errors; reconnecting resets the upload and error counters to
zero; against a mock sink, a call entering `upload_message` with 100
uploads already on the session performs LOGOUT/reconnect before its APPEND
(which then runs as the first upload of the new session); and consequently
no session ever performs more than 100 APPENDs in any run. -/
theorem c6_connection_recycling :
    (∀ (now t0 : Nat) (st : ImapState),
        st.connection_start_time = some t0 →
        (900 < now - t0 ∨ 100 ≤ st.total_uploads ∨
          10 ≤ st.connection_errors) →
        should_recycle_connection now st = true) ∧
    (∀ (now : Nat) (st : ImapState),
        (reconnect now st).total_uploads = 0 ∧
        (reconnect now st).connection_errors = 0) ∧
    (∀ (now : Nat) (st : ImapState),
        st.connection_start_time.isSome = true →
        100 ≤ st.total_uploads →
        (upload_message_mock now st).2
          = [ImapEvent.logoutReconnect,
             ImapEvent.append (st.sessionId + 1)] ∧
        (upload_message_mock now st).1.total_uploads = 1) ∧
    (∀ (times : List Nat) (t0 s : Nat),
        appendCount s (uploadRun times t0).2 ≤ 100) := by
  refine ⟨?_, ?_, ?_, ?_⟩
  · intro now t0 st hcst hdis
    rcases hdis with h | h | h <;>
      simp [should_recycle_connection, hcst, h]
  · intro now st
    exact ⟨rfl, rfl⟩
  · intro now st h1 h2
    have hr := recycle_of_uploads now st h1 h2
    constructor <;> simp [upload_message_mock, hr, reconnect, connect]
  · intro times t0 s
    simp only [uploadRun]
    apply uploadRunAux_append_bound
    · rfl
    · dsimp only [connect]
      omega
    · rfl
    · intro u
      simp [appendCount]
    · intro u _
      rfl

/-- C6 witness: a session that has already performed 100 uploads — the
101st call recycles first and its APPEND opens the next session. -/
theorem c6_connection_recycling_witness :
    should_recycle_connection 6 ⟨some 5, 100, 0, 1⟩ = true ∧
    (upload_message_mock 6 ⟨some 5, 100, 0, 1⟩).2
      = [ImapEvent.logoutReconnect, ImapEvent.append 2] ∧
    (upload_message_mock 6 ⟨some 5, 100, 0, 1⟩).1.total_uploads = 1 :=
  ⟨c6_connection_recycling.1 6 5 ⟨some 5, 100, 0, 1⟩ rfl
      (Or.inr (Or.inl (by decide))),
   (c6_connection_recycling.2.2.1 6 ⟨some 5, 100, 0, 1⟩ rfl (by decide)).1,
   (c6_connection_recycling.2.2.1 6 ⟨some 5, 100, 0, 1⟩ rfl (by decide)).2⟩

/-! ## Theorems for C3 and C4 -/

/-- C3 counterexample: a forced flush does write the record, but the write
goes directly into the progress file — `save_progress` opens the target for
writing and dumps into it, with no sibling temporary file and no rename —
so the claimed atomic-write pattern does not hold of the performed
operations. -/
theorem c3_counterexample :
    (save_progress_batch true 100 ⟨0⟩ "progress.json" "REC").2
      = save_progress "progress.json" "REC" ∧
    atomicWritePattern "progress.json" (save_progress "progress.json" "REC")
      = false := by
  constructor <;> decide

/-- C3 amended: the flush writes the persisted record exactly when `force`
is true or at least 30 seconds have elapsed since the last write, and the
write is performed directly on the progress file: the emitted operations
contain no rename into the progress file, and when a write happens it is the
plain open/write/close sequence of `save_progress` (hence not atomic with
respect to crashes). -/
theorem c3_amended_flush (force : Bool) (currentTime : Int)
    (st : BatchSaveState) (f r : String) :
    (((save_progress_batch force currentTime st f r).2 ≠ []) ↔
       (force = true ∨ 30 ≤ currentTime - st.lastSaveTime)) ∧
    (∀ op ∈ (save_progress_batch force currentTime st f r).2,
       isRenameInto f op = false) ∧
    ((save_progress_batch force currentTime st f r).2 ≠ [] →
       (save_progress_batch force currentTime st f r).2 = save_progress f r ∧
       FileOp.writeData f r ∈ (save_progress_batch force currentTime st f r).2) := by
  by_cases h : force = true ∨ 30 ≤ currentTime - st.lastSaveTime
  · simp [save_progress_batch, h, save_progress, isRenameInto]
  · simp [save_progress_batch, h]

/-- C3 witness: instantiates the amended flush theorem at a concrete forced
flush. -/
theorem c3_amended_flush_witness :
    (save_progress_batch true 40 ⟨0⟩ "progress.json" "REC").2
      = save_progress "progress.json" "REC" ∧
    FileOp.writeData "progress.json" "REC"
      ∈ (save_progress_batch true 40 ⟨0⟩ "progress.json" "REC").2 :=
  ⟨((c3_amended_flush true 40 ⟨0⟩ "progress.json" "REC").2.2
      (by decide)).1,
   ((c3_amended_flush true 40 ⟨0⟩ "progress.json" "REC").2.2
      (by decide)).2⟩

/-- C4: the code contradicts the claim (and its own inline comment "If this
is the last attempt or not an SSL error, re-raise"): an APPEND failure whose
text contains none of the markers SSL/socket/LOGOUT/connection is NOT
re-raised on a non-final attempt — the loop falls through and performs
another APPEND attempt for the same message.  Concretely, with the first
attempt failing as "Invalid mailbox" and the second succeeding, the call
performs 2 APPEND attempts and returns success instead of raising
immediately after 1. -/
theorem c4_permanent_error_is_retried :
    isSslError "Invalid mailbox" = false ∧
    upload_message [AppendOutcome.failure "Invalid mailbox",
                    AppendOutcome.success]
      = ⟨2, 0, none⟩ := by
  constructor <;> decide

end GmailToImap
